import Mathlib

/-!
Shallow embedding of the lock state machine of `src/i3lock.c`:
the credential buffer (`passwd`, `len`), the grab-acquisition loops,
the main event loop, and the PAM conversation callback.
Machine integers are modelled as `Nat`; the 256-byte backing store
`passwd` is a total function `Nat → Nat` whose indices `0..255` matter.
-/

namespace I3Lock

/-! ### Key symbols and classification macros (X11 `keysymdef.h`, `Xutil.h`) -/

def XK_Return : Nat := 0xff0d
def XK_Escape : Nat := 0xff1b
def XK_BackSpace : Nat := 0xff08
def XK_KP_Enter : Nat := 0xff8d
def XK_KP_0 : Nat := 0xffb0
def XK_KP_9 : Nat := 0xffb9
def XK_0 : Nat := 0x30

/-- Macro `IsKeypadKey(k)`: `XK_KP_Space (0xff80) <= k <= XK_KP_Equal (0xffbd)`. -/
def IsKeypadKey (k : Nat) : Bool := decide (0xff80 ≤ k ∧ k ≤ 0xffbd)

/-- Macro `IsFunctionKey(k)`: `XK_F1 (0xffbe) <= k <= XK_F35 (0xffe0)`. -/
def IsFunctionKey (k : Nat) : Bool := decide (0xffbe ≤ k ∧ k ≤ 0xffe0)

/-- Macro `IsMiscFunctionKey(k)`: `XK_Select (0xff60) <= k <= XK_Break (0xff6b)`. -/
def IsMiscFunctionKey (k : Nat) : Bool := decide (0xff60 ≤ k ∧ k ≤ 0xff6b)

/-- Macro `IsPFKey(k)`: `XK_KP_F1 (0xff91) <= k <= XK_KP_F4 (0xff94)`. -/
def IsPFKey (k : Nat) : Bool := decide (0xff91 ≤ k ∧ k ≤ 0xff94)

/-- Macro `IsPrivateKeypadKey(k)`: `0x11000000 <= k <= 0x1100ffff`. -/
def IsPrivateKeypadKey (k : Nat) : Bool := decide (0x11000000 ≤ k ∧ k ≤ 0x1100ffff)

/-- C-locale `iscntrl` on a byte value: `0..31` or `127`. -/
def iscntrl (b : Nat) : Bool := decide (b < 32 ∨ b = 127)

/-! ### Byte-store primitives for the `passwd` array -/

/-- One array-cell store `p[i] = v`. -/
def setByte (p : Nat → Nat) (i v : Nat) : Nat → Nat :=
  fun j => if j = i then v else p j

/-- The store `memcpy(p + off, bs, bs.length)`. -/
def writeBytes : (Nat → Nat) → Nat → List Nat → (Nat → Nat)
  | p, _, [] => p
  | p, off, b :: bs => writeBytes (setByte p off b) (off + 1) bs

/-- Read the NUL-terminated C string starting at index `i`, with fuel. -/
def cStringAux (p : Nat → Nat) : Nat → Nat → List Nat
  | _, 0 => []
  | i, Nat.succ fuel => if p i = 0 then [] else p i :: cStringAux p (i + 1) fuel

/-- The C string held in `passwd` (what `strdup(passwd)` copies). -/
def cString (p : Nat → Nat) : List Nat := cStringAux p 0 256

/-! ### The event-loop state (`passwd`, `len`, `running` of `main`) -/

structure LoopState where
  passwd : Nat → Nat
  len : Nat
  running : Bool

structure Config where
  dpms : Bool
  dpmsCapable : Bool
  beep : Bool

/-- Observable collaborator calls made while processing one event. -/
structure Effects where
  dpmsFired : Bool
  authCalled : Bool
  bellRung : Bool

/-- Events delivered by `XNextEvent`: a key press carries the keysym and
the byte string that `XLookupString` translates it to (`num` is its length);
anything else is `other`. -/
inductive XEvent where
  | keyPress (ksym : Nat) (lookup : List Nat)
  | other

/-- Keypad normalisation at lines 356-361: `KP_Enter ↦ Return`,
`KP_0..KP_9 ↦ XK_0..XK_9`. -/
def normalizeKeysym (k : Nat) : Nat :=
  if IsKeypadKey k then
    if k = XK_KP_Enter then XK_Return
    else if XK_KP_0 ≤ k ∧ k ≤ XK_KP_9 then k - XK_KP_0 + XK_0
    else k
  else k

/-- Lines 390-395, the `default:` branch of the switch: append the looked-up
bytes when the string is nonempty, its first byte is not a control character,
and `len + num < sizeof passwd` (= 256); otherwise leave everything unchanged. -/
def tryAppend (p : Nat → Nat) (len : Nat) (lookup : List Nat) :
    (Nat → Nat) × Nat :=
  if lookup.length ≠ 0 ∧ iscntrl (lookup.headD 0) = false ∧
      len + lookup.length < 256 then
    (writeBytes p len lookup, len + lookup.length)
  else (p, len)

/-- Process one key-press event (lines 354-396), after the DPMS check.
`auth` is the PAM oracle: the verdict of `pam_authenticate` on the
credential string handed over by the conversation callback. -/
def stepKey (cfg : Config) (auth : List Nat → Bool) (s : LoopState)
    (k : Nat) (lookup : List Nat) (dpmsFired : Bool) : LoopState × Effects :=
  let ks := normalizeKeysym k
  if IsFunctionKey ks || IsKeypadKey ks || IsMiscFunctionKey ks ||
      IsPFKey ks || IsPrivateKeypadKey ks then
    (s, ⟨dpmsFired, false, false⟩)
  else if ks = XK_Return then
    let p1 := setByte s.passwd s.len 0
    if s.len = 0 then
      ({ s with passwd := p1 }, ⟨dpmsFired, false, false⟩)
    else if auth (cString p1) then
      ({ passwd := p1, len := 0, running := false }, ⟨dpmsFired, true, false⟩)
    else
      ({ passwd := p1, len := 0, running := s.running },
        ⟨dpmsFired, true, cfg.beep⟩)
  else if ks = XK_Escape then
    ({ s with len := 0 }, ⟨dpmsFired, false, false⟩)
  else if ks = XK_BackSpace then
    (if 0 < s.len then { s with len := s.len - 1 } else s,
      ⟨dpmsFired, false, false⟩)
  else
    let r := tryAppend s.passwd s.len lookup
    ({ s with passwd := r.1, len := r.2 }, ⟨dpmsFired, false, false⟩)

/-- One iteration of the main event loop (lines 345-397): the DPMS point at
the top of the body (fires when `len == 0` and DPMS is configured and the
display is capable), then non-key events are dropped, then the key dispatch. -/
def stepEvent (cfg : Config) (auth : List Nat → Bool) (s : LoopState)
    (ev : XEvent) : LoopState × Effects :=
  let dpmsFired := decide (s.len = 0) && cfg.dpms && cfg.dpmsCapable
  match ev with
  | XEvent.other => (s, ⟨dpmsFired, false, false⟩)
  | XEvent.keyPress k lookup => stepKey cfg auth s k lookup dpmsFired

/-- Run the event loop over a queue of delivered events; the loop reads the
next event only while `running` holds. Returns the final state and the
per-iteration effects, in order. -/
def runLoop (cfg : Config) (auth : List Nat → Bool) :
    LoopState → List XEvent → LoopState × List Effects
  | s, [] => (s, [])
  | s, ev :: rest =>
    if s.running then
      let r := stepEvent cfg auth s ev
      let t := runLoop cfg auth r.1 rest
      (t.1, r.2 :: t.2)
    else (s, [])

/-- State at loop entry: `passwd` is a zero-initialised static array, and
`len = 0` is set at line 341 just before the loop. -/
def initState (running : Bool) : LoopState :=
  { passwd := fun _ => 0, len := 0, running := running }

/-- How many times the DPMS collaborator was triggered in a run. -/
def dpmsCount (effs : List Effects) : Nat :=
  (effs.filter (fun e => e.dpmsFired)).length

/-! ### Grab acquisition (lines 326-342) -/

/-- Outcome of one `for(len = N; len; len--)` grab loop: the final value of
`len` (nonzero iff the grab succeeded), the number of grab attempts made,
and the number of `usleep` calls. -/
structure GrabRun where
  finalLen : Nat
  attempts : Nat
  sleeps : Nat
  deriving DecidableEq

/-- The grab retry loop, counting down from the given counter value;
`grab i` is the verdict of the i-th grab attempt (0-based). On success the
loop breaks before sleeping; on failure it sleeps and decrements. -/
def grabLoopFrom (grab : Nat → Bool) (idx : Nat) : Nat → GrabRun
  | 0 => ⟨0, 0, 0⟩
  | Nat.succ k =>
    if grab idx then ⟨Nat.succ k, 1, 0⟩
    else
      let r := grabLoopFrom grab (idx + 1) k
      ⟨r.finalLen, r.attempts + 1, r.sleeps + 1⟩

/-- A grab loop with `max_attempts = n`, attempts numbered from 0. -/
def grabLoop (grab : Nat → Bool) (n : Nat) : GrabRun := grabLoopFrom grab 0 n

/-- Combined result of the pointer-then-keyboard acquisition phase. -/
structure GrabPhase where
  pointerOk : Bool
  keyboardAttempted : Bool
  keyboardOk : Bool
  running : Bool
  deriving DecidableEq

/-- Lines 326-340: pointer grab loop; `running = running && (len > 0)`; only
if that holds, the keyboard grab loop, then `running = (len > 0)`. -/
def acquireGrabs (pg kg : Nat → Bool) (n : Nat) : GrabPhase :=
  let pr := grabLoop pg n
  if 0 < pr.finalLen then
    let kr := grabLoop kg n
    ⟨true, true, decide (0 < kr.finalLen), decide (0 < kr.finalLen)⟩
  else ⟨false, false, false, false⟩

/-! ### The post-setup run of `main` (grabs, loop, teardown, `return 0`) -/

structure LockOutcome where
  exitCode : Nat
  pointerUngrabbed : Bool
  finalState : LoopState
  effects : List Effects

/-- Lines 326-406 of `main`: acquire the grabs with `max_attempts = 1000`,
run the event loop while `running`, then tear down — `XUngrabPointer` is
called unconditionally and the function ends with `return 0`. -/
def lockAfterSetup (pg kg : Nat → Bool) (cfg : Config)
    (auth : List Nat → Bool) (events : List XEvent) : LockOutcome :=
  let g := acquireGrabs pg kg 1000
  let r := runLoop cfg auth (initState g.running) events
  ⟨0, true, r.1, r.2⟩

/-! ### The PAM conversation callback (`conv_callback`, lines 130-156) -/

def PAM_PROMPT_ECHO_OFF : Nat := 1
def PAM_PROMPT_ECHO_ON : Nat := 2

/-- The response-filling loop of `conv_callback`, modelling what the code
actually stores into the `calloc`-allocated response array. Lines 148-149
write through `resp[c]` — indexing the `pam_response **` argument, which
holds a single pointer — instead of `(*resp)[c]`. For `c = 0`,
`resp[0]->resp` is `(*resp)[0].resp`, so the first record is populated;
for `c ≥ 1` the write goes through an indeterminate pointer read from past
the argument's one slot and never reaches the allocated record, which keeps
its `calloc`-zeroed null response (the stray store itself is undefined
behavior at the memory level; here it is modelled as leaving the allocated
array untouched, the defined part of the state). A prompt whose style is
neither echo-off nor echo-on is skipped and also keeps the zeroed record.
`strdupOk c` says whether the `strdup` for message index `c` succeeds
(`strdup` is still called for every echo prompt, whatever `c`); `none` as
overall result is the early `return 1`. -/
def convLoop (pw : List Nat) (strdupOk : Nat → Bool) :
    Nat → List Nat → Option (List (Option (List Nat)))
  | _, [] => some []
  | c, style :: rest =>
    if style ≠ PAM_PROMPT_ECHO_OFF ∧ style ≠ PAM_PROMPT_ECHO_ON then
      (convLoop pw strdupOk (c + 1) rest).map (fun l => none :: l)
    else if strdupOk c then
      (convLoop pw strdupOk (c + 1) rest).map
        (fun l => (if c = 0 then some pw else none) :: l)
    else none

/-- The callback `conv_callback`: returns `none` (a nonzero return code) when `num_msg`
is 0, when the `calloc` of the response array fails, or when a `strdup`
fails; otherwise `some` the allocated response array, one entry per message,
populated as `convLoop` describes (only index 0 can ever receive the
credential, because of the `resp[c]` indexing slip). The `calloc` at line
137 is also sized by `sizeof(struct pam_message)` rather than
`pam_response`; allocation size is a memory-level fact with no observable
counterpart in this model beyond the `callocOk` oracle. -/
def conv_callback (pw : List Nat) (callocOk : Bool) (strdupOk : Nat → Bool)
    (msgs : List Nat) : Option (List (Option (List Nat))) :=
  if msgs.length = 0 then none
  else if callocOk = false then none
  else convLoop pw strdupOk 0 msgs

/-! ### Helper lemmas -/

/-- Unfolding the Enter case of the key dispatch: the terminator write
`passwd[len] = 0` happens first, then the empty check, then the attempt. -/
theorem stepKey_return_def (cfg : Config) (auth : List Nat → Bool)
    (s : LoopState) (lookup : List Nat) (d : Bool) :
    stepKey cfg auth s XK_Return lookup d =
      if s.len = 0 then
        ({ s with passwd := setByte s.passwd s.len 0 }, ⟨d, false, false⟩)
      else if auth (cString (setByte s.passwd s.len 0)) then
        ({ passwd := setByte s.passwd s.len 0, len := 0, running := false },
          ⟨d, true, false⟩)
      else
        ({ passwd := setByte s.passwd s.len 0, len := 0, running := s.running },
          ⟨d, true, cfg.beep⟩) := rfl

/-- The key dispatch reports the DPMS flag it was handed, untouched. -/
theorem stepKey_dpmsFired (cfg : Config) (auth : List Nat → Bool)
    (s : LoopState) (k : Nat) (lookup : List Nat) (d : Bool) :
    (stepKey cfg auth s k lookup d).2.dpmsFired = d := by
  unfold stepKey
  dsimp only
  split_ifs <;> rfl

/-- Once `running` is false the loop reads no event at all. -/
theorem runLoop_stop (cfg : Config) (auth : List Nat → Bool) (s : LoopState)
    (evs : List XEvent) (h : s.running = false) :
    runLoop cfg auth s evs = (s, []) := by
  cases evs with
  | nil => rfl
  | cons e rest => simp [runLoop, h]

/-- An always-failing grab primitive drives the retry loop all the way down:
the counter reaches 0, with one attempt and one sleep per counter value. -/
theorem grabLoopFrom_allFail (grab : Nat → Bool) (h : ∀ i, grab i = false) :
    ∀ (n idx : Nat), grabLoopFrom grab idx n = ⟨0, n, n⟩ := by
  intro n
  induction n with
  | zero => intro idx; rfl
  | succ k ih => intro idx; simp [grabLoopFrom, h idx, ih (idx + 1)]

/-- An always-failing grab primitive makes the whole loop fail. -/
theorem grabLoop_allFail (grab : Nat → Bool) (h : ∀ i, grab i = false)
    (n : Nat) : grabLoop grab n = ⟨0, n, n⟩ :=
  grabLoopFrom_allFail grab h n 0

/-- If the pointer grab always fails, the acquisition phase ends with
nothing attempted on the keyboard side and `running` false. -/
theorem acquireGrabs_pointerFail (pg kg : Nat → Bool)
    (h : ∀ i, pg i = false) (n : Nat) :
    acquireGrabs pg kg n = ⟨false, false, false, false⟩ := by
  unfold acquireGrabs
  rw [grabLoop_allFail pg h n]
  rfl

/-- A single append step keeps `len` under the buffer size. -/
theorem tryAppend_len_lt (p : Nat → Nat) (len : Nat) (bs : List Nat)
    (h : len < 256) : (tryAppend p len bs).2 < 256 := by
  unfold tryAppend
  split_ifs with hc
  · exact hc.2.2
  · exact h

/-- Every event-loop step keeps `len` under the buffer size. -/
theorem stepEvent_len_lt (cfg : Config) (auth : List Nat → Bool)
    (s : LoopState) (ev : XEvent) (h : s.len < 256) :
    (stepEvent cfg auth s ev).1.len < 256 := by
  cases ev with
  | other => exact h
  | keyPress k lookup =>
    show (stepKey cfg auth s k lookup _).1.len < 256
    unfold stepKey
    dsimp only
    split_ifs <;> dsimp only <;> first
      | exact h
      | decide
      | omega
      | exact tryAppend_len_lt s.passwd s.len lookup h

/-- Over any sequence of delivered events, `len` stays under the buffer
size if it started there. -/
theorem runLoop_len_lt (cfg : Config) (auth : List Nat → Bool) :
    ∀ (evs : List XEvent) (s : LoopState), s.len < 256 →
      (runLoop cfg auth s evs).1.len < 256 := by
  intro evs
  induction evs with
  | nil => intro s h; exact h
  | cons e rest ih =>
    intro s h
    by_cases hr : s.running = true
    · simp only [runLoop, hr, if_true]
      exact ih _ (stepEvent_len_lt cfg auth s e h)
    · simp only [runLoop, hr, if_false]
      exact h

/-! ### Claim theorems -/

/-- C1, counterexample: typing the single byte `a` (97) and pressing Enter is
a credential submission (the second iteration calls `pam_authenticate`), yet
afterwards position 0 of the `passwd` backing store still holds 97, not 0 —
the store is not zeroed after the attempt. -/
theorem c1_counterexample :
    (runLoop ⟨false, false, false⟩ (fun _ => false) (initState true)
        [XEvent.keyPress 0x61 [97], XEvent.keyPress XK_Return [13]]).1.passwd 0 = 97 ∧
    ((runLoop ⟨false, false, false⟩ (fun _ => false) (initState true)
        [XEvent.keyPress 0x61 [97], XEvent.keyPress XK_Return [13]]).2.getD 1
        ⟨false, false, false⟩).authCalled = true ∧
    (97 : Nat) ≠ 0 := by
  refine ⟨rfl, rfl, by decide⟩

/-- C1, amended: after every credential submission (Enter with a nonempty
buffer), regardless of the attempt's outcome, `len` is reset to 0 and the
backing store is the old store with a single zero terminator written at the
old `len` — bytes below the old `len` still hold the credential; the store
is not wiped. -/
theorem c1_submit_no_wipe (cfg : Config) (auth : List Nat → Bool)
    (s : LoopState) (lookup : List Nat) (h : s.len ≠ 0) :
    (stepEvent cfg auth s (XEvent.keyPress XK_Return lookup)).1.len = 0 ∧
    (stepEvent cfg auth s (XEvent.keyPress XK_Return lookup)).2.authCalled = true ∧
    (stepEvent cfg auth s (XEvent.keyPress XK_Return lookup)).1.passwd =
      setByte s.passwd s.len 0 := by
  rw [show stepEvent cfg auth s (XEvent.keyPress XK_Return lookup) =
        stepKey cfg auth s XK_Return lookup
          (decide (s.len = 0) && cfg.dpms && cfg.dpmsCapable) from rfl,
      stepKey_return_def, if_neg h]
  split_ifs <;> exact ⟨rfl, rfl, rfl⟩

/-- Witness for the amended C1 at a concrete one-byte credential. -/
theorem c1_submit_no_wipe_witness :
    (stepEvent ⟨false, false, false⟩ (fun _ => false) ⟨fun _ => 97, 1, true⟩
        (XEvent.keyPress XK_Return [13])).1.len = 0 ∧
    (stepEvent ⟨false, false, false⟩ (fun _ => false) ⟨fun _ => 97, 1, true⟩
        (XEvent.keyPress XK_Return [13])).2.authCalled = true ∧
    (stepEvent ⟨false, false, false⟩ (fun _ => false) ⟨fun _ => 97, 1, true⟩
        (XEvent.keyPress XK_Return [13])).1.passwd = setByte (fun _ => 97) 1 0 :=
  c1_submit_no_wipe ⟨false, false, false⟩ (fun _ => false)
    ⟨fun _ => 97, 1, true⟩ [13] (by decide)

/-- C2, counterexample: with `max_attempts = 1` and an always-failing grab
primitive, the loop makes 1 attempt but sleeps 1 time, not `N - 1 = 0` times
— `usleep` runs after every failed attempt, the last included. -/
theorem c2_counterexample :
    (grabLoop (fun _ => false) 1).attempts = 1 ∧
    (grabLoop (fun _ => false) 1).sleeps = 1 ∧ (1 : Nat) ≠ 1 - 1 := by
  decide

/-- C2, amended: with `max_attempts = n` and an always-failing grab
primitive, the loop performs exactly `n` attempts and exactly `n` sleeps
(one after each failed attempt, including the last), ends with counter 0,
and the acquisition phase then reports failure (`running` is false). -/
theorem c2_grab_exhaustion (grab kg : Nat → Bool) (n : Nat)
    (h : ∀ i, grab i = false) :
    grabLoop grab n = ⟨0, n, n⟩ ∧ (acquireGrabs grab kg n).running = false := by
  refine ⟨grabLoop_allFail grab h n, ?_⟩
  rw [acquireGrabs_pointerFail grab kg h n]

/-- Witness for the amended C2 at `n = 3`. -/
theorem c2_grab_exhaustion_witness :
    grabLoop (fun _ => false) 3 = ⟨0, 3, 3⟩ ∧
    (acquireGrabs (fun _ => false) (fun _ => false) 3).running = false :=
  c2_grab_exhaustion (fun _ => false) (fun _ => false) 3 (fun _ => rfl)

/-- C3, counterexample: when the pointer grab exhausts all 1000 retries the
run still finishes with exit code 0 — the code's final statement is
`return 0` on this path too, contradicting the claimed non-zero exit. -/
theorem c3_counterexample :
    (acquireGrabs (fun _ => false) (fun _ => false) 1000).pointerOk = false ∧
    (lockAfterSetup (fun _ => false) (fun _ => false) ⟨false, false, false⟩
        (fun _ => false) []).exitCode = 0 := by
  refine ⟨?_, rfl⟩
  rw [acquireGrabs_pointerFail (fun _ => false) (fun _ => false)
    (fun _ => rfl) 1000]

/-- C3, amended: when grab acquisition fails, the event loop is never
entered (no event is processed), the pointer grab is released before exit,
but the process exits with code 0 — the same exit code as a normal unlock,
not a non-zero one. -/
theorem c3_grab_failure_exit (pg kg : Nat → Bool) (cfg : Config)
    (auth : List Nat → Bool) (events : List XEvent)
    (h : (acquireGrabs pg kg 1000).running = false) :
    (lockAfterSetup pg kg cfg auth events).exitCode = 0 ∧
    (lockAfterSetup pg kg cfg auth events).pointerUngrabbed = true ∧
    (lockAfterSetup pg kg cfg auth events).effects = [] := by
  refine ⟨rfl, rfl, ?_⟩
  show (runLoop cfg auth (initState (acquireGrabs pg kg 1000).running)
    events).2 = []
  rw [h, runLoop_stop cfg auth (initState false) events rfl]

/-- Witness for the amended C3 with always-failing grabs and one pending
event. -/
theorem c3_grab_failure_exit_witness :
    (lockAfterSetup (fun _ => false) (fun _ => false) ⟨false, false, false⟩
        (fun _ => false) [XEvent.other]).exitCode = 0 ∧
    (lockAfterSetup (fun _ => false) (fun _ => false) ⟨false, false, false⟩
        (fun _ => false) [XEvent.other]).pointerUngrabbed = true ∧
    (lockAfterSetup (fun _ => false) (fun _ => false) ⟨false, false, false⟩
        (fun _ => false) [XEvent.other]).effects = [] :=
  c3_grab_failure_exit (fun _ => false) (fun _ => false) ⟨false, false, false⟩
    (fun _ => false) [XEvent.other]
    (by rw [acquireGrabs_pointerFail (fun _ => false) (fun _ => false)
      (fun _ => rfl) 1000])

/-- C4, counterexample: with DPMS configured and a capable display, two
consecutive non-key events both arrive with `len == 0`, so the power-state
collaborator is triggered twice — not exactly once. -/
theorem c4_counterexample :
    dpmsCount (runLoop ⟨true, true, false⟩ (fun _ => false) (initState true)
        [XEvent.other, XEvent.other]).2 = 2 ∧ (2 : Nat) ≠ 1 := by
  decide

/-- C4, amended: the power-state collaborator is triggered at the top of the
processing of every event that arrives while the buffer length is 0 (and
DPMS is configured and the display capable) — in particular on the first
event, but again on any later event that finds the buffer empty. -/
theorem c4_dpms_every_empty_event (cfg : Config) (auth : List Nat → Bool)
    (s : LoopState) (ev : XEvent) :
    (stepEvent cfg auth s ev).2.dpmsFired =
      (decide (s.len = 0) && cfg.dpms && cfg.dpmsCapable) := by
  cases ev with
  | other => rfl
  | keyPress k lookup => exact stepKey_dpmsFired cfg auth s k lookup _

/-- C5, counterexample: at `len = 255` an append of one byte has
`len + 1 = 256`, which is not `> 256`, so the claim mandates acceptance;
the code's guard `len + num < sizeof passwd` rejects it — `len` stays 255
and nothing is written at position 255. -/
theorem c5_counterexample :
    (tryAppend (fun _ => 0) 255 [97]).2 = 255 ∧
    (tryAppend (fun _ => 0) 255 [97]).1 255 = 0 ∧
    ¬(255 + ([97] : List Nat).length > 256) := by
  decide

/-- C5, amended: for a nonempty chunk whose first byte is not a control
character, append rejects (leaving store and length unchanged, no partial
write) exactly when `len + num ≥ 256` (one byte of the 256 is reserved for
the terminator), and otherwise copies all the bytes and advances `len`;
and over any event sequence from the initial state, `len` stays below 256,
so it never exceeds the capacity. -/
theorem c5_append_boundary (p : Nat → Nat) (len : Nat) (bs : List Nat)
    (hne : bs ≠ []) (hc : iscntrl (bs.headD 0) = false) :
    (256 ≤ len + bs.length → tryAppend p len bs = (p, len)) ∧
    (len + bs.length < 256 →
      tryAppend p len bs = (writeBytes p len bs, len + bs.length)) ∧
    (∀ cfg auth evs, (runLoop cfg auth (initState true) evs).1.len < 256) := by
  have hlen0 : bs.length ≠ 0 := fun h0 => hne (List.length_eq_zero.mp h0)
  refine ⟨?_, ?_, fun cfg auth evs => runLoop_len_lt cfg auth evs _ (by decide)⟩
  · intro hge
    unfold tryAppend
    rw [if_neg]
    rintro ⟨-, -, hlt⟩
    omega
  · intro hlt
    unfold tryAppend
    rw [if_pos ⟨hlen0, hc, hlt⟩]

/-- Witness for the amended C5: appending one byte to an empty buffer. -/
theorem c5_append_boundary_witness :
    tryAppend (fun _ => 0) 0 [97] =
      (writeBytes (fun _ => 0) 0 [97], 0 + ([97] : List Nat).length) :=
  (c5_append_boundary (fun _ => 0) 0 [97] (by decide) rfl).2.1 (by decide)

/-- C6: the keyboard grab is attempted only when the pointer grab succeeded,
and the event loop may run (`running` true) only when both the pointer and
the keyboard grab are held. -/
theorem c6_grab_order (pg kg : Nat → Bool) (n : Nat) :
    ((acquireGrabs pg kg n).keyboardAttempted = true →
      (acquireGrabs pg kg n).pointerOk = true) ∧
    ((acquireGrabs pg kg n).running = true →
      (acquireGrabs pg kg n).pointerOk = true ∧
      (acquireGrabs pg kg n).keyboardOk = true) := by
  unfold acquireGrabs
  dsimp only
  split_ifs with hp
  · exact ⟨fun _ => rfl, fun hr => ⟨rfl, hr⟩⟩
  · exact ⟨fun hk => by simp at hk, fun hr => by simp at hr⟩

/-- Witness for C6 with grabs that succeed at once. -/
theorem c6_grab_order_witness :
    (acquireGrabs (fun _ => true) (fun _ => true) 1).pointerOk = true ∧
    (acquireGrabs (fun _ => true) (fun _ => true) 1).keyboardOk = true :=
  (c6_grab_order (fun _ => true) (fun _ => true) 1).2 (by decide)

/-- C7: every authentication attempt (Enter with a nonempty buffer) calls
the backend exactly once and resets the buffer length to 0; on failure
`running` is left as it was, so the loop keeps processing events and the
process does not exit; on success `running` becomes false and the loop
exits, processing no further events. -/
theorem c7_auth_outcome (cfg : Config) (auth : List Nat → Bool)
    (s : LoopState) (lookup : List Nat) (evs : List XEvent) (h : s.len ≠ 0) :
    (stepEvent cfg auth s (XEvent.keyPress XK_Return lookup)).2.authCalled = true ∧
    (stepEvent cfg auth s (XEvent.keyPress XK_Return lookup)).1.len = 0 ∧
    (auth (cString (setByte s.passwd s.len 0)) = false →
      (stepEvent cfg auth s (XEvent.keyPress XK_Return lookup)).1.running =
        s.running) ∧
    (auth (cString (setByte s.passwd s.len 0)) = true →
      (stepEvent cfg auth s (XEvent.keyPress XK_Return lookup)).1.running =
        false ∧
      runLoop cfg auth
          (stepEvent cfg auth s (XEvent.keyPress XK_Return lookup)).1 evs =
        ((stepEvent cfg auth s (XEvent.keyPress XK_Return lookup)).1, [])) := by
  rw [show stepEvent cfg auth s (XEvent.keyPress XK_Return lookup) =
        stepKey cfg auth s XK_Return lookup
          (decide (s.len = 0) && cfg.dpms && cfg.dpmsCapable) from rfl,
      stepKey_return_def, if_neg h]
  by_cases ha : auth (cString (setByte s.passwd s.len 0)) = true
  · rw [if_pos ha]
    exact ⟨rfl, rfl, fun hf => by rw [ha] at hf; exact absurd hf (by decide),
      fun _ => ⟨rfl, runLoop_stop cfg auth _ evs rfl⟩⟩
  · rw [if_neg ha]
    exact ⟨rfl, rfl, fun _ => rfl, fun ht => absurd ht ha⟩

/-- Witness for C7: a successful attempt on a one-byte credential halts the
loop. -/
theorem c7_auth_outcome_witness :
    (stepEvent ⟨false, false, false⟩ (fun _ => true) ⟨fun _ => 97, 1, true⟩
        (XEvent.keyPress XK_Return [])).1.running = false ∧
    runLoop ⟨false, false, false⟩ (fun _ => true)
        (stepEvent ⟨false, false, false⟩ (fun _ => true) ⟨fun _ => 97, 1, true⟩
          (XEvent.keyPress XK_Return [])).1 [XEvent.other] =
      ((stepEvent ⟨false, false, false⟩ (fun _ => true) ⟨fun _ => 97, 1, true⟩
          (XEvent.keyPress XK_Return [])).1, []) :=
  (c7_auth_outcome ⟨false, false, false⟩ (fun _ => true) ⟨fun _ => 97, 1, true⟩
    [] [XEvent.other] (by decide)).2.2.2 rfl

/-- C8: an Enter keypress arriving with buffer length 0 never invokes the
authentication backend; the length stays 0 and the loop flag is untouched. -/
theorem c8_empty_enter (cfg : Config) (auth : List Nat → Bool) (p : Nat → Nat)
    (r : Bool) (lookup : List Nat) :
    (stepEvent cfg auth ⟨p, 0, r⟩
        (XEvent.keyPress XK_Return lookup)).2.authCalled = false ∧
    (stepEvent cfg auth ⟨p, 0, r⟩
        (XEvent.keyPress XK_Return lookup)).1.len = 0 ∧
    (stepEvent cfg auth ⟨p, 0, r⟩
        (XEvent.keyPress XK_Return lookup)).1.running = r := by
  rw [show stepEvent cfg auth ⟨p, 0, r⟩ (XEvent.keyPress XK_Return lookup) =
        stepKey cfg auth ⟨p, 0, r⟩ XK_Return lookup
          (decide ((⟨p, 0, r⟩ : LoopState).len = 0) && cfg.dpms &&
            cfg.dpmsCapable) from rfl,
      stepKey_return_def, if_pos rfl]
  exact ⟨rfl, rfl, rfl⟩

/-- C9, code bug: the claim says every echo-off/echo-on prompt receives
the candidate credential as its response. Evaluating the callback at a
conversation of two echo-off prompts with every allocation succeeding, it
returns success yet the second response record is still the `calloc`-zeroed
one (no response): the `resp[c]` write at lines 148-149 indexes the
`pam_response **` argument past its single slot instead of indexing the
allocated array `(*resp)[c]`, so the credential reaches only the prompt at
index 0 — contrary to the claim, the spec, and the code's own comment that
PAM expects one response for each message. -/
theorem c9_second_prompt_unpopulated :
    conv_callback [97] true (fun _ => true)
        [PAM_PROMPT_ECHO_OFF, PAM_PROMPT_ECHO_OFF] =
      some [some [97], none] ∧
    (none : Option (List Nat)) ≠ some [97] := by
  decide

/-- C10: the control-character filter looks only at the first byte of the
translated key string — a multi-byte lookup string whose first byte is not
a control character is appended in full when the buffer has room, even
though a later byte of the string is a control character. -/
theorem c10_first_byte_only (cfg : Config) (auth : List Nat → Bool)
    (s : LoopState) (k : Nat) (bs : List Nat)
    (hspec : (IsFunctionKey (normalizeKeysym k) ||
      IsKeypadKey (normalizeKeysym k) ||
      IsMiscFunctionKey (normalizeKeysym k) || IsPFKey (normalizeKeysym k) ||
      IsPrivateKeypadKey (normalizeKeysym k)) = false)
    (hret : normalizeKeysym k ≠ XK_Return)
    (hesc : normalizeKeysym k ≠ XK_Escape)
    (hbsp : normalizeKeysym k ≠ XK_BackSpace)
    (hlong : 1 < bs.length)
    (h0 : iscntrl (bs.headD 0) = false)
    (hctrl : ∃ i, 0 < i ∧ i < bs.length ∧ iscntrl (bs.getD i 0) = true)
    (hroom : s.len + bs.length < 256) :
    (stepEvent cfg auth s (XEvent.keyPress k bs)).1.len = s.len + bs.length ∧
    (stepEvent cfg auth s (XEvent.keyPress k bs)).1.passwd =
      writeBytes s.passwd s.len bs := by
  show (stepKey cfg auth s k bs _).1.len = _ ∧
    (stepKey cfg auth s k bs _).1.passwd = _
  unfold stepKey
  dsimp only
  rw [if_neg (by simp [hspec]), if_neg hret, if_neg hesc, if_neg hbsp]
  dsimp only
  unfold tryAppend
  rw [if_pos ⟨by omega, h0, hroom⟩]
  exact ⟨rfl, rfl⟩

/-- Witness for C10: keysym `a` translated to the two bytes 97 and 10,
where 10 (newline) is a control character; both bytes are appended. -/
theorem c10_first_byte_only_witness :
    (stepEvent ⟨false, false, false⟩ (fun _ => false) (initState true)
        (XEvent.keyPress 0x61 [97, 10])).1.len = 0 + 2 ∧
    (stepEvent ⟨false, false, false⟩ (fun _ => false) (initState true)
        (XEvent.keyPress 0x61 [97, 10])).1.passwd =
      writeBytes (fun _ => 0) 0 [97, 10] :=
  c10_first_byte_only ⟨false, false, false⟩ (fun _ => false) (initState true)
    0x61 [97, 10] (by decide) (by decide) (by decide) (by decide) (by decide)
    rfl ⟨1, by decide, by decide, rfl⟩ (by decide)

end I3Lock
